import Mathlib

/-!
Shallow embedding of the orchestration gateway of `apps/backend/src/chat`
(`chat.controller.ts` and `chat.service.ts`).

Modelling conventions:
- A possibly-absent JavaScript value (`undefined`/`null`) is an `Option`.
- JavaScript truthiness on strings (`!s` is true for `undefined` and `""`)
  is `falsyStr`.
- Each controller handler is a pure function of the request pieces plus the
  outcome of the (at most one) downstream HTTP call, returned by an oracle
  parameter of type `Downstream α`: either the downstream data or a failure
  carrying the optional Node error `code` (`ECONNREFUSED`, `ECONNABORTED`, ...).
- A thrown `HttpException(msg, status)` is an `HttpError`; a handler returns
  `Handled α`: the `Except HttpError α` result together with a Bool recording
  whether the downstream HTTP request was actually issued.
- The static shape of the outbound HTTP requests a service method issues
  (URL and axios `timeout` option) is captured separately by the
  `...Requests : List RequestConfig` definitions, read off the same source
  methods; `timeoutMs = none` means no `timeout` option was passed.
- Numeric JSON fields that are only carried through (execution times,
  relevance scores) are modelled as `Rat`; byte buffers as `List Nat`.
-/

namespace Gateway

/-- Thrown `HttpException(message, status)` from `@nestjs/common`. -/
structure HttpError where
  status : Nat
  message : String
deriving Repr, DecidableEq

/-- JavaScript error object as inspected by the service catch blocks:
its `message` and the optional Node.js `code` property
(`'code' in error` is `code ≠ none`). -/
structure JsError where
  message : String
  code : Option String
deriving Repr, DecidableEq

/-- Outcome of an outbound HTTP call: the parsed response data, or the
error thrown by axios / Node. -/
inductive Downstream (α : Type) where
  | success (data : α)
  | failure (e : JsError)
deriving Repr

/-- Result of a controller handler: the HTTP-level result together with
whether a downstream HTTP request was issued before it was produced. -/
structure Handled (α : Type) where
  result : Except HttpError α
  downstreamCalled : Bool
deriving Repr

/-- JavaScript string truthiness test, negated: `!s` for a possibly
undefined string is true when the value is absent or the empty string. -/
def falsyStr : Option String → Bool
  | none => true
  | some s => s == ""

/-- JavaScript `x || dflt` on a possibly-absent string (empty string is
falsy, so it also falls back). -/
def jsStrOrDefault (x : Option String) (dflt : String) : String :=
  match x with
  | none => dflt
  | some s => if s == "" then dflt else s

/-- JavaScript `s.startsWith(pre)`: the characters of `pre` are a prefix
of the characters of `s`. -/
def strStartsWith (s pre : String) : Bool :=
  pre.data.isPrefixOf s.data

/-- JavaScript `s.trim()`: the string with leading and trailing whitespace
characters removed. -/
def jsTrim (s : String) : String :=
  ⟨(((s.data.dropWhile Char.isWhitespace).reverse).dropWhile
      Char.isWhitespace).reverse⟩

/-- JavaScript `x || null` on a possibly-absent object: objects are always
truthy, so a present object is kept and an absent one becomes null. -/
def jsObjOrNull {α : Type} (x : Option α) : Option α :=
  match x with
  | none => none
  | some v => some v

/-- One entry of `sql_info.queries_executed` (interface `AgentResponse`). -/
structure SqlQuery where
  type : String
  description : String
  sql_query : Option String
deriving Repr, DecidableEq

/-- The `sql_info` metadata block of the structured-query agent. -/
structure SqlInfo where
  queries_executed : List SqlQuery
  total_execution_time : Rat
  queries_count : Nat
deriving Repr, DecidableEq

/-- Downstream response of the structured-query agent (interface
`AgentResponse` in `chat.controller.ts`). -/
structure AgentResponse where
  success : Bool
  response : String
  timestamp : String
  sql_info : Option SqlInfo
deriving Repr, DecidableEq

/-- One entry of `sources` (interface `RagResponse`). -/
structure RagSource where
  title : String
  category : String
  relevance_score : Rat
deriving Repr, DecidableEq

/-- Downstream response of the retrieval agent (interface `RagResponse`). -/
structure RagResponse where
  success : Bool
  response : String
  timestamp : String
  sources : Option (List RagSource)
deriving Repr, DecidableEq

/-- The `routing_info` block of the smart agent. -/
structure RoutingInfo where
  agent : String
  confidence : String
  reasoning : String
deriving Repr, DecidableEq

/-- Downstream response of the smart router (interface `SmartResponse`). -/
structure SmartResponse where
  success : Bool
  response : String
  timestamp : String
  agent_used : String
  routing_info : Option RoutingInfo
  sql_info : Option SqlInfo
  sources : Option (List RagSource)
deriving Repr, DecidableEq

/-- Downstream response of the OCR agent (interface `OCRResponse`). -/
structure OCRResponse where
  success : Bool
  extracted_text : String
  analysis : String
  recommendations : Option (List String)
  alerts : Option (List String)
  timestamp : String
deriving Repr, DecidableEq

/-- Downstream response of the health endpoint (interface `HealthResponse`);
`status` is read defensively (`response.data.status || 'unknown'`). -/
structure HealthResponse where
  status : Option String
  timestamp : String
  agent_loaded : Bool
deriving Repr, DecidableEq

/-- Multer upload object (interface `UploadedFile`): every field optional. -/
structure UploadedFile where
  originalname : Option String
  mimetype : Option String
  size : Option Nat
  buffer : Option (List Nat)
deriving Repr, DecidableEq

/-- Check `!file.buffer || file.buffer.length === 0` from
`ChatService.sendToOCRAgent`. -/
def bufferEmpty (file : UploadedFile) : Bool :=
  match file.buffer with
  | none => true
  | some b => b.isEmpty

/-- Static description of one outbound HTTP request: target URL and the
axios `timeout` option (`none` when no timeout option is passed, in which
case axios applies its default of no timeout at all). -/
structure RequestConfig where
  url : String
  timeoutMs : Option Nat
deriving Repr, DecidableEq

/-- Value of `AGENT_URL` (`process.env.AGENT_URL || defaults`). -/
def AGENT_URL (env : String → Option String) : String :=
  jsStrOrDefault (env "AGENT_URL") "http://localhost:8000/chat"

/-- Value of `RAG_URL`. -/
def RAG_URL (env : String → Option String) : String :=
  jsStrOrDefault (env "RAG_URL") "http://localhost:8000/rag"

/-- Value of `AGENT_HEALTH_URL`. -/
def AGENT_HEALTH_URL (env : String → Option String) : String :=
  jsStrOrDefault (env "AGENT_HEALTH_URL") "http://localhost:8000/health"

/-- Outbound requests issued by one invocation of `ChatService.sendToAgent`:
a single POST with a 30000 ms timeout (no retry wraps the call). -/
def sendToAgentRequests (env : String → Option String) : List RequestConfig :=
  [{ url := AGENT_URL env, timeoutMs := some 30000 }]

/-- Outbound requests issued by one invocation of `ChatService.sendToRag`:
a single POST with a 30000 ms timeout. -/
def sendToRagRequests (env : String → Option String) : List RequestConfig :=
  [{ url := RAG_URL env, timeoutMs := some 30000 }]

/-- Outbound requests issued by one invocation of
`ChatService.sendToSmartAgent`: a single POST with a 30000 ms timeout. -/
def sendToSmartAgentRequests : List RequestConfig :=
  [{ url := "http://localhost:8000/smart", timeoutMs := some 30000 }]

/-- Outbound requests issued by one invocation of
`ChatService.sendToOCRAgent`: when the buffer guard passes, a single POST
with a 120000 ms timeout; when the buffer is empty or missing the guard
throws before any request is issued. -/
def sendToOCRAgentRequests (file : UploadedFile) : List RequestConfig :=
  if bufferEmpty file then []
  else [{ url := "http://localhost:8000/ocr", timeoutMs := some 120000 }]

/-- Outbound request issued by `ChatController.healthCheck`: a GET with no
config object at all, hence no `timeout` option. -/
def healthCheckRequest : RequestConfig :=
  { url := "http://localhost:8000/health", timeoutMs := none }

/-- Catch-block classification in `ChatService.sendToAgent`. -/
def classifyAgentError (e : JsError) : HttpError :=
  if e.code = some "ECONNREFUSED" then
    { status := 503, message := "Agent service is unavailable" }
  else if e.code = some "ECONNABORTED" then
    { status := 408, message := "Agent service timeout" }
  else
    { status := 500, message := "Failed to communicate with agent" }

/-- Catch-block classification in `ChatService.sendToRag`. -/
def classifyRagError (e : JsError) : HttpError :=
  if e.code = some "ECONNREFUSED" then
    { status := 503, message := "RAG service is unavailable" }
  else if e.code = some "ECONNABORTED" then
    { status := 408, message := "RAG service timeout" }
  else
    { status := 500, message := "Failed to communicate with RAG agent" }

/-- Catch-block classification in `ChatService.sendToSmartAgent`. -/
def classifySmartError (e : JsError) : HttpError :=
  if e.code = some "ECONNREFUSED" then
    { status := 503, message := "Smart agent service is unavailable" }
  else if e.code = some "ECONNABORTED" then
    { status := 408, message := "Smart agent service timeout" }
  else
    { status := 500, message := "Failed to communicate with smart agent" }

/-- Catch-block classification in `ChatService.sendToOCRAgent`. -/
def classifyOCRError (e : JsError) : HttpError :=
  if e.code = some "ECONNREFUSED" then
    { status := 503, message := "OCR service is unavailable" }
  else if e.code = some "ECONNABORTED" then
    { status := 408, message := "OCR service timeout" }
  else
    { status := 500, message := "Failed to communicate with OCR agent" }

/-- Result of `ChatService.sendToAgent` for a given downstream outcome:
the response data, or the HttpException its catch block throws. -/
def sendToAgent (outcome : Downstream AgentResponse) :
    Except HttpError AgentResponse :=
  match outcome with
  | .success d => .ok d
  | .failure e => .error (classifyAgentError e)

/-- Result of `ChatService.sendToRag`. -/
def sendToRag (outcome : Downstream RagResponse) :
    Except HttpError RagResponse :=
  match outcome with
  | .success d => .ok d
  | .failure e => .error (classifyRagError e)

/-- Result of `ChatService.sendToSmartAgent`. -/
def sendToSmartAgent (outcome : Downstream SmartResponse) :
    Except HttpError SmartResponse :=
  match outcome with
  | .success d => .ok d
  | .failure e => .error (classifySmartError e)

/-- Result of `ChatService.sendToOCRAgent`: the buffer guard
(`throw new Error('File buffer is empty or invalid')`, a plain Error with
no `code` property) fires before the POST and is classified by the same
catch block; otherwise the outcome of the POST is returned or classified. -/
def sendToOCRAgent (file : UploadedFile) (outcome : Downstream OCRResponse) :
    Except HttpError OCRResponse :=
  if bufferEmpty file then
    .error (classifyOCRError { message := "File buffer is empty or invalid", code := none })
  else
    match outcome with
    | .success d => .ok d
    | .failure e => .error (classifyOCRError e)

/-- Auth rejection condition shared by every POST handler:
`!auth || !auth.startsWith('Bearer ')`. -/
def authRejects (auth : Option String) : Bool :=
  falsyStr auth || !(strStartsWith (auth.getD "") "Bearer ")

/-- Message rejection condition of the text routes:
`!body.message || body.message.trim().length === 0`. -/
def msgRejects (message : Option String) : Bool :=
  falsyStr message || ((jsTrim (message.getD "")).length == 0)

/-- Envelope returned by `POST /chat/database`. -/
structure DbEnvelope where
  success : Bool
  response : String
  timestamp : String
  sql_info : Option SqlInfo
deriving Repr, DecidableEq

/-- Envelope returned by `POST /chat/rag`. -/
structure RagEnvelope where
  success : Bool
  response : String
  timestamp : String
  sources : Option (List RagSource)
deriving Repr, DecidableEq

/-- Envelope returned by `POST /chat/ocr`. -/
structure OCREnvelope where
  success : Bool
  extracted_text : String
  analysis : String
  recommendations : Option (List String)
  alerts : Option (List String)
  timestamp : String
deriving Repr, DecidableEq

/-- Composite health envelope returned by `GET /chat/health`. -/
structure HealthEnvelope where
  status : String
  nestjs : String
  python_agent : String
deriving Repr, DecidableEq

/-- Handler `ChatController.chatDatabase`: auth check, message check, then
dispatch through `sendToAgent` and envelope construction
(`sql_info: agentResponse.sql_info || null`). A thrown HttpException is
re-thrown unchanged by the catch block. -/
def chatDatabase (auth message : Option String) (userRole : String)
    (outcome : Downstream AgentResponse) : Handled DbEnvelope :=
  if authRejects auth then
    { result := .error { status := 401, message := "Unauthorized" },
      downstreamCalled := false }
  else if msgRejects message then
    { result := .error { status := 400, message := "Message is required" },
      downstreamCalled := false }
  else
    match sendToAgent outcome with
    | .ok d =>
      { result := .ok { success := d.success, response := d.response,
                        timestamp := d.timestamp,
                        sql_info := jsObjOrNull d.sql_info },
        downstreamCalled := true }
    | .error e => { result := .error e, downstreamCalled := true }

/-- Handler `ChatController.chatRag`. -/
def chatRag (auth message : Option String)
    (outcome : Downstream RagResponse) : Handled RagEnvelope :=
  if authRejects auth then
    { result := .error { status := 401, message := "Unauthorized" },
      downstreamCalled := false }
  else if msgRejects message then
    { result := .error { status := 400, message := "Message is required" },
      downstreamCalled := false }
  else
    match sendToRag outcome with
    | .ok d =>
      { result := .ok { success := d.success, response := d.response,
                        timestamp := d.timestamp,
                        sources := jsObjOrNull d.sources },
        downstreamCalled := true }
    | .error e => { result := .error e, downstreamCalled := true }

/-- Handler `ChatController.chatSmart`: `routing_info`, `sql_info` and
`sources` are copied into the envelope exactly as received. -/
def chatSmart (auth message : Option String) (userRole : String)
    (outcome : Downstream SmartResponse) : Handled SmartResponse :=
  if authRejects auth then
    { result := .error { status := 401, message := "Unauthorized" },
      downstreamCalled := false }
  else if msgRejects message then
    { result := .error { status := 400, message := "Message is required" },
      downstreamCalled := false }
  else
    match sendToSmartAgent outcome with
    | .ok d =>
      { result := .ok { success := d.success, response := d.response,
                        timestamp := d.timestamp, agent_used := d.agent_used,
                        routing_info := d.routing_info,
                        sql_info := d.sql_info, sources := d.sources },
        downstreamCalled := true }
    | .error e => { result := .error e, downstreamCalled := true }

/-- The mime-type whitelist `allowedTypes` of `ChatController.processOCR`. -/
def allowedTypes : List String :=
  ["application/pdf", "image/png", "image/jpeg", "image/jpg"]

/-- The maximum upload size `maxSize = 10 * 1024 * 1024` (10 MiB). -/
def maxSize : Nat := 10 * 1024 * 1024

/-- Handler `ChatController.processOCR`: auth check, file presence check,
mime-type whitelist, size bound (`file.size || 0`), then dispatch through
`sendToOCRAgent`; the downstream HTTP request is issued only when the
buffer guard inside the service passes. -/
def processOCR (auth : Option String) (file : Option UploadedFile)
    (outcome : Downstream OCRResponse) : Handled OCREnvelope :=
  if authRejects auth then
    { result := .error { status := 401, message := "Unauthorized" },
      downstreamCalled := false }
  else
    match file with
    | none =>
      { result := .error { status := 400, message := "File is required" },
        downstreamCalled := false }
    | some f =>
      if !(allowedTypes.contains (f.mimetype.getD "")) then
        { result := .error
            ⟨400, "Invalid file type. Only PDF, PNG, JPG, JPEG are allowed"⟩,
          downstreamCalled := false }
      else if (f.size.getD 0) > maxSize then
        { result := .error ⟨400, "File too large. Maximum size is 10MB"⟩,
          downstreamCalled := false }
      else
        match sendToOCRAgent f outcome with
        | .ok d =>
          { result := .ok { success := d.success,
                            extracted_text := d.extracted_text,
                            analysis := d.analysis,
                            recommendations := d.recommendations,
                            alerts := d.alerts, timestamp := d.timestamp },
            downstreamCalled := !(bufferEmpty f) }
        | .error e =>
          { result := .error e, downstreamCalled := !(bufferEmpty f) }

/-- Handler `ChatController.healthCheck`: on a successful probe, reports
`healthy` with the probed status (`response.data.status || 'unknown'`);
on any probe failure the catch returns `unhealthy` with the gateway up and
the python agent down. -/
def healthCheck (outcome : Downstream HealthResponse) : HealthEnvelope :=
  match outcome with
  | .success d =>
    { status := "healthy", nestjs := "up",
      python_agent := jsStrOrDefault d.status "unknown" }
  | .failure _ =>
    { status := "unhealthy", nestjs := "up", python_agent := "down" }

/-- The logical file types named by the specification: pdf, png, jpeg. -/
inductive FileKind where
  | pdf
  | png
  | jpeg
deriving Repr, DecidableEq

/-- Spec-side reading of a mime string as one of the logical file types
{pdf, png, jpeg} the specification names, written from the way those types
are conventionally spelled as mime strings; `image/jpg` is the widespread
alias spelling of the jpeg type (the controller message itself reads
"Only PDF, PNG, JPG, JPEG are allowed"). Returns `none` for a string
denoting no allowed type. -/
def specMimeKind (m : String) : Option FileKind :=
  if m = "application/pdf" then some FileKind.pdf
  else if m = "image/png" then some FileKind.png
  else if m = "image/jpeg" then some FileKind.jpeg
  else if m = "image/jpg" then some FileKind.jpeg
  else none

/-- Membership in the controller's mime whitelist coincides with denoting
one of the logical file types pdf, png, jpeg named by the specification. -/
lemma mem_allowed_iff_specMimeKind (m : String) :
    m ∈ allowedTypes ↔ specMimeKind m ≠ none := by
  constructor
  · intro h
    simp only [allowedTypes, List.mem_cons, List.not_mem_nil, or_false] at h
    rcases h with rfl | rfl | rfl | rfl <;> simp [specMimeKind]
  · intro h
    by_cases h1 : m = "application/pdf"
    · subst h1; decide
    · by_cases h2 : m = "image/png"
      · subst h2; decide
      · by_cases h3 : m = "image/jpeg"
        · subst h3; decide
        · by_cases h4 : m = "image/jpg"
          · subst h4; decide
          · exact absurd (by simp [specMimeKind, h1, h2, h3, h4]) h

/-- A header that is missing or does not start with the Bearer scheme is
rejected by the shared auth condition. -/
lemma authRejects_true_of_spec (auth : Option String)
    (h : auth = none ∨ ∃ s, auth = some s ∧ strStartsWith s "Bearer " = false) :
    authRejects auth = true := by
  rcases h with rfl | ⟨s, rfl, hs⟩
  · rfl
  · simp [authRejects, falsyStr, hs]

/-- A header that starts with the Bearer scheme passes the shared auth
condition (such a header is in particular non-empty). -/
lemma authRejects_false_of_bearer (s : String)
    (hs : strStartsWith s "Bearer " = true) :
    authRejects (some s) = false := by
  by_cases he : s = ""
  · subst he
    exact absurd hs (by decide)
  · simp [authRejects, falsyStr, hs, he]

/-- A message that is missing or empty after trimming is rejected by the
shared message condition. -/
lemma msgRejects_true_of_spec (m : Option String)
    (h : m = none ∨ ∃ s, m = some s ∧ jsTrim s = "") :
    msgRejects m = true := by
  rcases h with rfl | ⟨s, rfl, hs⟩
  · rfl
  · simp [msgRejects, falsyStr, hs]

/-- C1: on every chat route, a request whose Authorization header is
missing or does not start with the exact prefix `Bearer ` is answered with
401 Unauthorized and no downstream call is made; on the three text routes,
an authenticated request whose message is missing or empty after trimming
is answered with 400 `Message is required` and no downstream call is made. -/
theorem chat_routes_reject_before_any_dispatch :
    (∀ (auth message : Option String) (role : String)
        (oDb : Downstream AgentResponse) (oRag : Downstream RagResponse)
        (oSmart : Downstream SmartResponse) (file : Option UploadedFile)
        (oOcr : Downstream OCRResponse),
      (auth = none ∨ ∃ s, auth = some s ∧ strStartsWith s "Bearer " = false) →
      chatDatabase auth message role oDb =
        ⟨.error ⟨401, "Unauthorized"⟩, false⟩ ∧
      chatRag auth message oRag = ⟨.error ⟨401, "Unauthorized"⟩, false⟩ ∧
      chatSmart auth message role oSmart =
        ⟨.error ⟨401, "Unauthorized"⟩, false⟩ ∧
      processOCR auth file oOcr = ⟨.error ⟨401, "Unauthorized"⟩, false⟩) ∧
    (∀ (auth message : Option String) (role : String)
        (oDb : Downstream AgentResponse) (oRag : Downstream RagResponse)
        (oSmart : Downstream SmartResponse),
      (∃ s, auth = some s ∧ strStartsWith s "Bearer " = true) →
      (message = none ∨ ∃ s, message = some s ∧ jsTrim s = "") →
      chatDatabase auth message role oDb =
        ⟨.error ⟨400, "Message is required"⟩, false⟩ ∧
      chatRag auth message oRag =
        ⟨.error ⟨400, "Message is required"⟩, false⟩ ∧
      chatSmart auth message role oSmart =
        ⟨.error ⟨400, "Message is required"⟩, false⟩) := by
  constructor
  · intro auth message role oDb oRag oSmart file oOcr h
    have hA := authRejects_true_of_spec auth h
    refine ⟨?_, ?_, ?_, ?_⟩ <;>
      simp [chatDatabase, chatRag, chatSmart, processOCR, hA]
  · intro auth message role oDb oRag oSmart hok hm
    obtain ⟨s, rfl, hs⟩ := hok
    have hA := authRejects_false_of_bearer s hs
    have hM := msgRejects_true_of_spec message hm
    refine ⟨?_, ?_, ?_⟩ <;> simp [chatDatabase, chatRag, chatSmart, hA, hM]

/-- Witness for C1 at concrete requests: a missing header on the database
and OCR routes yields 401 without dispatch, and an authenticated request
with a whitespace-only message yields 400 without dispatch. -/
theorem chat_routes_reject_before_any_dispatch_witness :
    chatDatabase none (some "hi") "admin" (.failure ⟨"boom", none⟩) =
      ⟨.error ⟨401, "Unauthorized"⟩, false⟩ ∧
    processOCR none
      (some ⟨some "a.pdf", some "application/pdf", some 5, some [1, 2]⟩)
      (.failure ⟨"boom", none⟩) = ⟨.error ⟨401, "Unauthorized"⟩, false⟩ ∧
    chatDatabase (some "Bearer t") (some "   ") "admin"
      (.failure ⟨"boom", none⟩) =
      ⟨.error ⟨400, "Message is required"⟩, false⟩ := by
  refine ⟨?_, ?_, ?_⟩
  · exact (chat_routes_reject_before_any_dispatch.1 none (some "hi") "admin"
      (.failure ⟨"boom", none⟩) (.failure ⟨"boom", none⟩)
      (.failure ⟨"boom", none⟩) none (.failure ⟨"boom", none⟩)
      (Or.inl rfl)).1
  · exact (chat_routes_reject_before_any_dispatch.1 none (some "hi") "admin"
      (.failure ⟨"boom", none⟩) (.failure ⟨"boom", none⟩)
      (.failure ⟨"boom", none⟩)
      (some ⟨some "a.pdf", some "application/pdf", some 5, some [1, 2]⟩)
      (.failure ⟨"boom", none⟩) (Or.inl rfl)).2.2.2
  · exact (chat_routes_reject_before_any_dispatch.2 (some "Bearer t")
      (some "   ") "admin" (.failure ⟨"boom", none⟩)
      (.failure ⟨"boom", none⟩) (.failure ⟨"boom", none⟩)
      ⟨"Bearer t", rfl, by decide⟩ (Or.inr ⟨"   ", rfl, by decide⟩)).1

/-- C9: the authentication check runs before any body or file validation:
a request that both lacks a Bearer-prefixed Authorization header and has an
invalid body (missing or blank message on the text routes, missing file on
the OCR route) is answered 401, never 400, with no downstream call. -/
theorem auth_check_precedes_body_validation
    (auth message : Option String) (role : String)
    (oDb : Downstream AgentResponse) (oRag : Downstream RagResponse)
    (oSmart : Downstream SmartResponse) (oOcr : Downstream OCRResponse)
    (hauth : auth = none ∨ ∃ s, auth = some s ∧ strStartsWith s "Bearer " = false)
    (hmsg : message = none ∨ ∃ s, message = some s ∧ jsTrim s = "") :
    chatDatabase auth message role oDb =
      ⟨.error ⟨401, "Unauthorized"⟩, false⟩ ∧
    chatRag auth message oRag = ⟨.error ⟨401, "Unauthorized"⟩, false⟩ ∧
    chatSmart auth message role oSmart =
      ⟨.error ⟨401, "Unauthorized"⟩, false⟩ ∧
    processOCR auth none oOcr = ⟨.error ⟨401, "Unauthorized"⟩, false⟩ := by
  have hA := authRejects_true_of_spec auth hauth
  refine ⟨?_, ?_, ?_, ?_⟩ <;>
    simp [chatDatabase, chatRag, chatSmart, processOCR, hA]

/-- Witness for C9: a request with no header and a blank message (and, on
the OCR route, no file) is answered 401 on every route. -/
theorem auth_check_precedes_body_validation_witness :
    chatDatabase none (some " ") "admin" (.failure ⟨"boom", none⟩) =
      ⟨.error ⟨401, "Unauthorized"⟩, false⟩ ∧
    chatRag none (some " ") (.failure ⟨"boom", none⟩) =
      ⟨.error ⟨401, "Unauthorized"⟩, false⟩ ∧
    chatSmart none (some " ") "admin" (.failure ⟨"boom", none⟩) =
      ⟨.error ⟨401, "Unauthorized"⟩, false⟩ ∧
    processOCR none none (.failure ⟨"boom", none⟩) =
      ⟨.error ⟨401, "Unauthorized"⟩, false⟩ :=
  auth_check_precedes_body_validation none (some " ") "admin"
    (.failure ⟨"boom", none⟩) (.failure ⟨"boom", none⟩)
    (.failure ⟨"boom", none⟩) (.failure ⟨"boom", none⟩)
    (Or.inl rfl) (Or.inr ⟨" ", rfl, by decide⟩)

/-- Any HttpException produced by the OCR service catch block has status
503, 408 or 500 (never a 400 validation status). -/
lemma classifyOCRError_status (e : JsError) :
    (classifyOCRError e).status = 503 ∨ (classifyOCRError e).status = 408 ∨
      (classifyOCRError e).status = 500 := by
  unfold classifyOCRError
  split_ifs <;> simp

/-- Every error result of `sendToOCRAgent` comes out of its catch-block
classification. -/
lemma sendToOCRAgent_error_shape (f : UploadedFile)
    (o : Downstream OCRResponse) (e : HttpError)
    (h : sendToOCRAgent f o = .error e) : ∃ e0, e = classifyOCRError e0 := by
  unfold sendToOCRAgent at h
  by_cases hb : bufferEmpty f = true
  · simp [hb] at h
    exact ⟨_, h.symm⟩
  · simp [hb] at h
    cases o with
    | success d => simp at h
    | failure e2 =>
      simp at h
      exact ⟨e2, h.symm⟩

/-- C2: an authenticated OCR upload whose mime string denotes none of the
logical types pdf, png, jpeg is answered 400 with the whitelist message and
no bytes are relayed downstream; moreover the controller whitelist accepts
a mime string exactly when it denotes one of those three types. -/
theorem ocr_rejects_disallowed_mime :
    (∀ (auth : Option String) (f : UploadedFile) (o : Downstream OCRResponse),
      authRejects auth = false →
      specMimeKind (f.mimetype.getD "") = none →
      processOCR auth (some f) o =
        ⟨.error ⟨400, "Invalid file type. Only PDF, PNG, JPG, JPEG are allowed"⟩,
         false⟩) ∧
    (∀ m : String, m ∈ allowedTypes ↔ specMimeKind m ≠ none) := by
  constructor
  · intro auth f o hA hk
    have hcm : f.mimetype.getD "" ∉ allowedTypes := by
      intro hmem
      exact absurd ((mem_allowed_iff_specMimeKind _).mp hmem) (by simp [hk])
    simp [processOCR, hA, hcm]
  · exact mem_allowed_iff_specMimeKind

/-- Witness for C2: a `text/plain` upload with a valid bearer header is
rejected 400 without any downstream relay. -/
theorem ocr_rejects_disallowed_mime_witness :
    specMimeKind "text/plain" = none ∧
    processOCR (some "Bearer t")
      (some ⟨some "a.txt", some "text/plain", some 5, some [1, 2]⟩)
      (.failure ⟨"boom", none⟩) =
      ⟨.error ⟨400, "Invalid file type. Only PDF, PNG, JPG, JPEG are allowed"⟩,
       false⟩ :=
  ⟨by decide,
   ocr_rejects_disallowed_mime.1 (some "Bearer t")
     ⟨some "a.txt", some "text/plain", some 5, some [1, 2]⟩
     (.failure ⟨"boom", none⟩) (by decide) (by decide)⟩

/-- C3: an authenticated OCR upload of an allowed mime type whose reported
size exceeds 10 MiB is answered 400 `File too large. Maximum size is 10MB`
with no downstream contact, and any upload of 10 MiB or less passes the
size check (the handler never returns that error for it). -/
theorem ocr_rejects_oversized_file
    (auth : Option String) (f : UploadedFile) (o : Downstream OCRResponse)
    (hA : authRejects auth = false)
    (hm : f.mimetype.getD "" ∈ allowedTypes) :
    ((f.size.getD 0) > 10 * 1024 * 1024 →
      processOCR auth (some f) o =
        ⟨.error ⟨400, "File too large. Maximum size is 10MB"⟩, false⟩) ∧
    ((f.size.getD 0) ≤ 10 * 1024 * 1024 →
      (processOCR auth (some f) o).result ≠
        .error ⟨400, "File too large. Maximum size is 10MB"⟩) := by
  constructor
  · intro hgt
    simp [processOCR, hA, hm, maxSize, hgt]
  · intro hle
    have hng : ¬ (maxSize < f.size.getD 0) := by
      simp only [maxSize]
      omega
    cases hs : sendToOCRAgent f o with
    | ok d => simp [processOCR, hA, hm, hng, hs]
    | error e =>
      obtain ⟨e0, rfl⟩ := sendToOCRAgent_error_shape f o e hs
      have hred : (processOCR auth (some f) o).result =
          .error (classifyOCRError e0) := by
        simp [processOCR, hA, hm, hng, hs]
      rw [hred]
      intro hcontra
      injection hcontra with h
      have h400 : (classifyOCRError e0).status = 400 := by rw [h]
      rcases classifyOCRError_status e0 with h5 | h5 | h5 <;> omega

/-- Witness for C3: a 12 MiB PDF is rejected with the exact message and no
downstream contact, while a PDF of exactly 10 MiB passes the size check. -/
theorem ocr_rejects_oversized_file_witness :
    12 * 1024 * 1024 > 10 * 1024 * 1024 ∧
    processOCR (some "Bearer t")
      (some ⟨some "big.pdf", some "application/pdf", some (12 * 1024 * 1024),
             some [1, 2]⟩) (.failure ⟨"boom", none⟩) =
      ⟨.error ⟨400, "File too large. Maximum size is 10MB"⟩, false⟩ ∧
    (processOCR (some "Bearer t")
      (some ⟨some "ok.pdf", some "application/pdf", some (10 * 1024 * 1024),
             some [1, 2]⟩) (.failure ⟨"boom", none⟩)).result ≠
      .error ⟨400, "File too large. Maximum size is 10MB"⟩ :=
  ⟨by decide,
   (ocr_rejects_oversized_file (some "Bearer t")
     ⟨some "big.pdf", some "application/pdf", some (12 * 1024 * 1024),
      some [1, 2]⟩ (.failure ⟨"boom", none⟩) (by decide) (by decide)).1
     (by decide),
   (ocr_rejects_oversized_file (some "Bearer t")
     ⟨some "ok.pdf", some "application/pdf", some (10 * 1024 * 1024),
      some [1, 2]⟩ (.failure ⟨"boom", none⟩) (by decide) (by decide)).2
     (by decide)⟩

/-- The wrapper `x || null` on an optional object block is the identity in
the Option model (objects are always truthy). -/
lemma jsObjOrNull_eq {α : Type} (x : Option α) : jsObjOrNull x = x := by
  cases x <;> rfl

/-- C4: on every capability, a connection-refused downstream failure is
surfaced as 503 with a message identifying the capability, a timeout as
408, and any other downstream failure as the fixed generic 500 message of
that capability (independent of the failure's own message, so never a raw
stack trace). -/
theorem downstream_failures_classified
    (auth message : Option String) (role : String) (f : UploadedFile)
    (e : JsError)
    (hA : authRejects auth = false) (hM : msgRejects message = false)
    (hm : f.mimetype.getD "" ∈ allowedTypes)
    (hsz : ¬ (maxSize < f.size.getD 0)) (hb : bufferEmpty f = false) :
    (e.code = some "ECONNREFUSED" →
      chatDatabase auth message role (.failure e) =
        ⟨.error ⟨503, "Agent service is unavailable"⟩, true⟩ ∧
      chatRag auth message (.failure e) =
        ⟨.error ⟨503, "RAG service is unavailable"⟩, true⟩ ∧
      chatSmart auth message role (.failure e) =
        ⟨.error ⟨503, "Smart agent service is unavailable"⟩, true⟩ ∧
      processOCR auth (some f) (.failure e) =
        ⟨.error ⟨503, "OCR service is unavailable"⟩, true⟩) ∧
    (e.code = some "ECONNABORTED" →
      chatDatabase auth message role (.failure e) =
        ⟨.error ⟨408, "Agent service timeout"⟩, true⟩ ∧
      chatRag auth message (.failure e) =
        ⟨.error ⟨408, "RAG service timeout"⟩, true⟩ ∧
      chatSmart auth message role (.failure e) =
        ⟨.error ⟨408, "Smart agent service timeout"⟩, true⟩ ∧
      processOCR auth (some f) (.failure e) =
        ⟨.error ⟨408, "OCR service timeout"⟩, true⟩) ∧
    (e.code ≠ some "ECONNREFUSED" → e.code ≠ some "ECONNABORTED" →
      chatDatabase auth message role (.failure e) =
        ⟨.error ⟨500, "Failed to communicate with agent"⟩, true⟩ ∧
      chatRag auth message (.failure e) =
        ⟨.error ⟨500, "Failed to communicate with RAG agent"⟩, true⟩ ∧
      chatSmart auth message role (.failure e) =
        ⟨.error ⟨500, "Failed to communicate with smart agent"⟩, true⟩ ∧
      processOCR auth (some f) (.failure e) =
        ⟨.error ⟨500, "Failed to communicate with OCR agent"⟩, true⟩) := by
  refine ⟨fun hc => ⟨?_, ?_, ?_, ?_⟩, fun hc => ⟨?_, ?_, ?_, ?_⟩,
    fun hc1 hc2 => ⟨?_, ?_, ?_, ?_⟩⟩ <;>
    simp [chatDatabase, chatRag, chatSmart, processOCR, sendToAgent,
      sendToRag, sendToSmartAgent, sendToOCRAgent, classifyAgentError,
      classifyRagError, classifySmartError, classifyOCRError, hA, hM, hm,
      hsz, hb, *]

/-- Witness for C4 at a concrete authenticated request: a refused
connection yields 503 on the database route, a timeout yields 408 on the
RAG route, and an unclassified failure yields the generic 500 on the OCR
route. -/
theorem downstream_failures_classified_witness :
    chatDatabase (some "Bearer t") (some "hi") "admin"
      (.failure ⟨"connect ECONNREFUSED", some "ECONNREFUSED"⟩) =
      ⟨.error ⟨503, "Agent service is unavailable"⟩, true⟩ ∧
    chatRag (some "Bearer t") (some "hi")
      (.failure ⟨"timeout of 30000ms exceeded", some "ECONNABORTED"⟩) =
      ⟨.error ⟨408, "RAG service timeout"⟩, true⟩ ∧
    processOCR (some "Bearer t")
      (some ⟨some "a.pdf", some "application/pdf", some 5, some [1, 2]⟩)
      (.failure ⟨"socket hang up", some "ECONNRESET"⟩) =
      ⟨.error ⟨500, "Failed to communicate with OCR agent"⟩, true⟩ := by
  refine ⟨?_, ?_, ?_⟩
  · exact ((downstream_failures_classified (some "Bearer t") (some "hi")
      "admin" ⟨some "a.pdf", some "application/pdf", some 5, some [1, 2]⟩
      ⟨"connect ECONNREFUSED", some "ECONNREFUSED"⟩ (by decide) (by decide)
      (by decide) (by decide) (by decide)).1 rfl).1
  · exact ((downstream_failures_classified (some "Bearer t") (some "hi")
      "admin" ⟨some "a.pdf", some "application/pdf", some 5, some [1, 2]⟩
      ⟨"timeout of 30000ms exceeded", some "ECONNABORTED"⟩ (by decide)
      (by decide) (by decide) (by decide) (by decide)).2.1 rfl).2.1
  · exact ((downstream_failures_classified (some "Bearer t") (some "hi")
      "admin" ⟨some "a.pdf", some "application/pdf", some 5, some [1, 2]⟩
      ⟨"socket hang up", some "ECONNRESET"⟩ (by decide) (by decide)
      (by decide) (by decide) (by decide)).2.2 (by decide)
      (by decide)).2.2.2

/-- C5: each text-capability dispatch issues exactly one outbound request
configured with a 30000 ms timeout, the OCR dispatch issues at most one
outbound request (exactly one once the buffer guard passes) configured
with a 120000 ms timeout, and no retry is layered on top (never more than
one attempt per inbound request). -/
theorem dispatch_timeouts_single_attempt
    (env : String → Option String) (f : UploadedFile) :
    (sendToAgentRequests env).length = 1 ∧
    (∀ c ∈ sendToAgentRequests env, c.timeoutMs = some 30000) ∧
    (sendToRagRequests env).length = 1 ∧
    (∀ c ∈ sendToRagRequests env, c.timeoutMs = some 30000) ∧
    sendToSmartAgentRequests.length = 1 ∧
    (∀ c ∈ sendToSmartAgentRequests, c.timeoutMs = some 30000) ∧
    (sendToOCRAgentRequests f).length ≤ 1 ∧
    (bufferEmpty f = false → (sendToOCRAgentRequests f).length = 1) ∧
    (∀ c ∈ sendToOCRAgentRequests f, c.timeoutMs = some 120000) := by
  refine ⟨rfl, ?_, rfl, ?_, rfl, ?_, ?_, ?_, ?_⟩ <;>
    simp [sendToAgentRequests, sendToRagRequests, sendToSmartAgentRequests,
      sendToOCRAgentRequests] <;>
    cases hb : bufferEmpty f <;> simp [hb]

/-- Witness for C5: with the default environment and a file with a
non-empty buffer, the OCR dispatch issues exactly one request. -/
theorem dispatch_timeouts_single_attempt_witness :
    bufferEmpty ⟨some "a.pdf", some "application/pdf", some 5, some [1]⟩
      = false ∧
    (sendToOCRAgentRequests
      ⟨some "a.pdf", some "application/pdf", some 5, some [1]⟩).length = 1 :=
  ⟨by decide,
   (dispatch_timeouts_single_attempt (fun _ => none)
     ⟨some "a.pdf", some "application/pdf", some 5, some [1]⟩).2.2.2.2.2.2.2.1
     (by decide)⟩

/-- C6: a successful structured-query downstream response is returned with
`success`, `response`, `timestamp` and `sql_info` unchanged; an absent
`sql_info` stays absent (null), never an error. -/
theorem database_normalization_lossfree
    (auth message : Option String) (role : String) (d : AgentResponse)
    (hA : authRejects auth = false) (hM : msgRejects message = false) :
    chatDatabase auth message role (.success d) =
      ⟨.ok ⟨d.success, d.response, d.timestamp, d.sql_info⟩, true⟩ := by
  simp [chatDatabase, sendToAgent, jsObjOrNull_eq, hA, hM]

/-- Witness for C6 at a concrete request: a populated `sql_info` block is
passed through verbatim and an absent one becomes null. -/
theorem database_normalization_lossfree_witness :
    chatDatabase (some "Bearer t") (some "How many orders?") "admin"
      (.success ⟨true, "42 orders", "2025-09-07T00:00:00Z",
        some ⟨[⟨"select", "count", some "SELECT 1"⟩], 12, 1⟩⟩) =
      ⟨.ok ⟨true, "42 orders", "2025-09-07T00:00:00Z",
        some ⟨[⟨"select", "count", some "SELECT 1"⟩], 12, 1⟩⟩, true⟩ ∧
    chatDatabase (some "Bearer t") (some "How many orders?") "admin"
      (.success ⟨true, "42 orders", "2025-09-07T00:00:00Z", none⟩) =
      ⟨.ok ⟨true, "42 orders", "2025-09-07T00:00:00Z", none⟩, true⟩ :=
  ⟨database_normalization_lossfree (some "Bearer t")
     (some "How many orders?") "admin"
     ⟨true, "42 orders", "2025-09-07T00:00:00Z",
      some ⟨[⟨"select", "count", some "SELECT 1"⟩], 12, 1⟩⟩
     (by decide) (by decide),
   database_normalization_lossfree (some "Bearer t")
     (some "How many orders?") "admin"
     ⟨true, "42 orders", "2025-09-07T00:00:00Z", none⟩
     (by decide) (by decide)⟩

/-- C7: the smart-route envelope copies `routing_info`, `sql_info` and
`sources` exactly as the downstream included them — zero, one, or both
metadata blocks pass through, in particular both blocks alongside
`routing_info` when `agent_used` is `both`. -/
theorem smart_metadata_passthrough
    (auth message : Option String) (role : String) (sd : SmartResponse)
    (hA : authRejects auth = false) (hM : msgRejects message = false) :
    chatSmart auth message role (.success sd) =
      ⟨.ok ⟨sd.success, sd.response, sd.timestamp, sd.agent_used,
            sd.routing_info, sd.sql_info, sd.sources⟩, true⟩ := by
  simp [chatSmart, sendToSmartAgent, hA, hM]

/-- Witness for C7 at the claim's scenario: `agent_used = "both"` with both
the sql and sources metadata blocks populated is passed through whole,
alongside `routing_info`. -/
theorem smart_metadata_passthrough_witness :
    chatSmart (some "Bearer t") (some "hi") "admin"
      (.success ⟨true, "combined", "2025-09-07T00:00:00Z", "both",
        some ⟨"both", "high", "needs sql and docs"⟩,
        some ⟨[⟨"select", "count", some "SELECT 1"⟩], 12, 1⟩,
        some [⟨"Vacation Policy", "benefits", 9 / 10⟩]⟩) =
      ⟨.ok ⟨true, "combined", "2025-09-07T00:00:00Z", "both",
        some ⟨"both", "high", "needs sql and docs"⟩,
        some ⟨[⟨"select", "count", some "SELECT 1"⟩], 12, 1⟩,
        some [⟨"Vacation Policy", "benefits", 9 / 10⟩]⟩, true⟩ :=
  smart_metadata_passthrough (some "Bearer t") (some "hi") "admin"
    ⟨true, "combined", "2025-09-07T00:00:00Z", "both",
     some ⟨"both", "high", "needs sql and docs"⟩,
     some ⟨[⟨"select", "count", some "SELECT 1"⟩], 12, 1⟩,
     some [⟨"Vacation Policy", "benefits", 9 / 10⟩]⟩
    (by decide) (by decide)

/-- Counterexample to C8 as stated: the health probe is issued with no
timeout option at all, so it carries no timeout of its own (in particular
none bounded independently of the 30 s / 120 s dispatch budgets). -/
theorem health_probe_timeout_cex :
    ¬ ∃ t : Nat, healthCheckRequest.timeoutMs = some t := by
  rintro ⟨t, h⟩
  simp [healthCheckRequest] at h

/-- C8 amended: the health probe is issued with no configured timeout (the
HTTP client default, unbounded); on any probe failure the route returns
status `unhealthy` with the gateway reported up and the downstream
reported down, and on a successful probe it reports `healthy` with the
observed downstream status. -/
theorem health_probe_unbounded_failure_reported :
    healthCheckRequest.timeoutMs = none ∧
    (∀ e : JsError, healthCheck (.failure e) =
      ⟨"unhealthy", "up", "down"⟩) ∧
    (∀ d : HealthResponse, healthCheck (.success d) =
      ⟨"healthy", "up", jsStrOrDefault d.status "unknown"⟩) :=
  ⟨rfl, fun _ => rfl, fun _ => rfl⟩

/-- Counterexample to C10 as stated: an authenticated PDF upload with no
size field and no buffer passes validation and fails with 500, but the
message is the OCR relay's catch-all `Failed to communicate with OCR
agent`, not the claimed `Internal server error`. -/
theorem ocr_empty_buffer_message_cex :
    processOCR (some "Bearer t")
      (some ⟨some "a.pdf", some "application/pdf", none, none⟩)
      (.failure ⟨"boom", none⟩) =
      ⟨.error ⟨500, "Failed to communicate with OCR agent"⟩, false⟩ ∧
    "Failed to communicate with OCR agent" ≠ "Internal server error" := by
  exact ⟨rfl, by decide⟩

/-- C10 amended: an authenticated OCR upload with an allowed mime type, a
missing size field (treated as 0, satisfying the 10 MiB check) and a
missing or empty buffer passes all gateway validation and then fails in
the relay step before any bytes are sent, with the service's generic 500
`Failed to communicate with OCR agent` (re-thrown unchanged by the
controller), not a 400 validation rejection. -/
theorem ocr_empty_buffer_fails_in_relay
    (auth : Option String) (f : UploadedFile) (o : Downstream OCRResponse)
    (hA : authRejects auth = false)
    (hm : f.mimetype.getD "" ∈ allowedTypes)
    (hsz : f.size = none) (hb : bufferEmpty f = true) :
    processOCR auth (some f) o =
      ⟨.error ⟨500, "Failed to communicate with OCR agent"⟩, false⟩ := by
  have hng : ¬ (maxSize < f.size.getD 0) := by
    simp [hsz, maxSize]
  simp [processOCR, sendToOCRAgent, classifyOCRError, hA, hm, hng, hb]

/-- Witness for the amended C10 at a concrete upload with no buffer. -/
theorem ocr_empty_buffer_fails_in_relay_witness :
    bufferEmpty ⟨some "b.png", some "image/png", none, none⟩ = true ∧
    processOCR (some "Bearer t")
      (some ⟨some "b.png", some "image/png", none, none⟩)
      (.success ⟨true, "text", "fine", none, none, "2025-09-07T00:00:00Z"⟩) =
      ⟨.error ⟨500, "Failed to communicate with OCR agent"⟩, false⟩ :=
  ⟨by decide,
   ocr_empty_buffer_fails_in_relay (some "Bearer t")
     ⟨some "b.png", some "image/png", none, none⟩
     (.success ⟨true, "text", "fine", none, none, "2025-09-07T00:00:00Z"⟩)
     (by decide) (by decide) rfl (by decide)⟩

end Gateway
